import Mathlib

/-!
Verification of the zmod flash-backed log storage module (logging/src/log_storage.c).

The module state and each public operation are shallowly embedded as pure Lean
functions.  External collaborators (the Zephyr FCB ring, the flash driver, the
kernel mutex and the configuration manager) are modelled by explicit oracles:
each operation takes an environment record holding the results the collaborator
calls would return, and the embedding reproduces the C control flow over those
results.  The FCB ring content is abstracted as the FIFO list of finalized
records, following the spec's collaborator contract (records become visible
only at finalize; rotation drops the oldest records; clear empties the ring;
getnext advances the cursor to the next surviving entry or reports no-more-data
leaving the cursor entry unchanged).
-/

namespace ZmodLogStorage

/-- errno values used by the module (returned negated, as in C). -/
def ENOENT : Int := 2
def EIOerrno : Int := 5
def E2BIG : Int := 7
def EBUSY : Int := 16
def EINVAL : Int := 22
def ENOSPC : Int := 28

/-- Zephyr log severity levels. -/
def LOG_LEVEL_NONE : Nat := 0
def LOG_LEVEL_ERR : Nat := 1
def LOG_LEVEL_WRN : Nat := 2
def LOG_LEVEL_INF : Nat := 3
def LOG_LEVEL_DBG : Nat := 4

/-- struct fcb_entry, reduced to the fields the module reads: fe_sector
(abstracted to the index of the entry's record in the FIFO list, none = NULL)
and fe_data_len. -/
structure FcbEntry where
  fe_sector : Option Nat
  fe_data_len : Nat
deriving DecidableEq

/-- zmod_log_storage_read_ctx_t: the read cursor. -/
structure ReadCtx where
  head : FcbEntry
  read_bytes : Nat
deriving DecidableEq

/-- The FCB ring, abstracted to its FIFO list of finalized records
(each record a list of bytes). -/
structure Fcb where
  records : List (List Nat)
deriving DecidableEq

/-- prv_log_storage_state_t, reduced to the fields the claims concern. -/
structure LogState where
  fa : Option Nat
  fcb : Fcb
  read_head : ReadCtx
  export_in_progress : Bool
deriving DecidableEq

/-- The all-zero read context produced by memset in the C code
(fe_sector = NULL, fe_data_len = 0, read_bytes = 0). -/
def resetReadCtx : ReadCtx := ⟨⟨none, 0⟩, 0⟩

/-- zmod_log_storage_reset_read: memset of the read cursor. -/
def zmod_log_storage_reset_read (st : LogState) : LogState :=
  { st with read_head := resetReadCtx }

/-- External collaborator fcb_clear: erases every sector, so the FIFO list of
surviving records becomes empty. -/
def fcb_clear (_f : Fcb) : Fcb := ⟨[]⟩

/-- External collaborator fcb_rotate on success: erases the oldest sector,
dropping some prefix of the FIFO list (how many records that sector held is an
oracle input). -/
def fcb_rotate_effect (f : Fcb) (drop : Nat) : Fcb := ⟨f.records.drop drop⟩

/-- External collaborator fcb_getnext, per the spec's cursor contract: from a
NULL entry it moves to the oldest surviving record; from record i it moves to
record i+1; when no further record exists it returns -ENOENT and the cursor
entry is not moved. -/
def fcb_getnext (recs : List (List Nat)) (loc : FcbEntry) : Int × FcbEntry :=
  match loc.fe_sector with
  | none =>
    match recs with
    | [] => (-ENOENT, loc)
    | r :: _ => (0, ⟨some 0, r.length⟩)
  | some i =>
    if h : i + 1 < recs.length then
      (0, ⟨some (i + 1), (recs.get ⟨i + 1, h⟩).length⟩)
    else
      (-ENOENT, loc)

/-- Oracle for one zmod_log_storage_add_data call: the mutex outcome and the
results each collaborator call would return if reached.  rotateDrop is the
number of records lost when rotation succeeds. -/
structure AppendEnv where
  lockOk : Bool
  res1 : Int
  rotateRes : Int
  rotateDrop : Nat
  res2 : Int
  writeRes : Int
  finishRes : Int
deriving DecidableEq

/-- Result of one zmod_log_storage_add_data call: return code, post state,
whether k_mutex_lock was reached, and how many fcb_append / fcb_rotate calls
were made. -/
structure AppendOut where
  ret : Int
  st : LogState
  lockAttempted : Bool
  reserveCalls : Nat
  rotateCalls : Nat
deriving DecidableEq

/-- The tail of zmod_log_storage_add_data once a location has been reserved:
flash_area_write of the record bytes, then fcb_append_finish.  The record
becomes visible in the FIFO list only when the finalize step succeeds. -/
def prv_write_finish (st : LogState) (data : List Nat) (buf_size : Nat)
    (env : AppendEnv) (reserves rotations : Nat) : AppendOut :=
  if env.writeRes < 0 then
    ⟨env.writeRes, st, true, reserves, rotations⟩
  else if env.finishRes < 0 then
    ⟨env.finishRes, st, true, reserves, rotations⟩
  else
    ⟨0, { st with fcb := ⟨st.fcb.records ++ [data.take buf_size]⟩ }, true, reserves, rotations⟩

/-- The locked section of zmod_log_storage_add_data: first fcb_append; on
-ENOSPC one fcb_rotate and one retry of fcb_append; on a reservation failure
fcb_clear plus memset of the read cursor; then the write/finalize tail. -/
def prv_append_locked (st : LogState) (data : List Nat) (buf_size : Nat)
    (env : AppendEnv) : AppendOut :=
  if env.res1 = -ENOSPC then
    if env.rotateRes < 0 then
      ⟨env.rotateRes, st, true, 1, 1⟩
    else
      if env.res2 < 0 then
        ⟨env.res2,
         { st with fcb := fcb_clear (fcb_rotate_effect st.fcb env.rotateDrop),
                   read_head := resetReadCtx },
         true, 2, 1⟩
      else
        prv_write_finish { st with fcb := fcb_rotate_effect st.fcb env.rotateDrop }
          data buf_size env 2 1
  else if env.res1 < 0 then
    ⟨env.res1, { st with fcb := fcb_clear st.fcb, read_head := resetReadCtx }, true, 1, 0⟩
  else
    prv_write_finish st data buf_size env 1 0

/-- zmod_log_storage_add_data.  buf is the pointed-to bytes (none = NULL),
buf_size the length argument; a stored record is the first buf_size bytes of
buf.  Guards in C order: NULL check, zero-length no-op, export suppression,
mutex acquisition, then the locked section. -/
def zmod_log_storage_add_data (st : LogState) (buf : Option (List Nat))
    (buf_size : Nat) (env : AppendEnv) : AppendOut :=
  match buf with
  | none => ⟨-EINVAL, st, false, 0, 0⟩
  | some data =>
    if buf_size = 0 then ⟨0, st, false, 0, 0⟩
    else if st.export_in_progress then ⟨0, st, false, 0, 0⟩
    else if env.lockOk = false then ⟨-EBUSY, st, true, 0, 0⟩
    else prv_append_locked st data buf_size env

/-- Oracle for one zmod_log_storage_fetch_data call: mutex outcome and
flash_area_read outcome. -/
structure FetchEnv where
  lockOk : Bool
  readOk : Bool
deriving DecidableEq

/-- Result of one zmod_log_storage_fetch_data call: return code, post state,
whether k_mutex_lock was reached, the value stored through out_size (none if
not written) and the bytes copied into dst (none if none were). -/
structure FetchOut where
  ret : Int
  st : LogState
  lockAttempted : Bool
  out_size : Option Nat
  delivered : Option (List Nat)
deriving DecidableEq

/-- The C expression `uint16_t len = fe_data_len - read_bytes`: a size_t
subtraction truncated to uint16_t. -/
def lenSub (dataLen readBytes : Nat) : Nat :=
  ((2 ^ 64 + dataLen - readBytes) % 2 ^ 64) % 2 ^ 16

/-- zmod_log_storage_fetch_data.  dstNull / outNull model NULL argument
pointers.  Mirrors the C control flow: argument check, mutex, the
advance-cursor branch (which zeroes read_bytes before calling fcb_getnext and
returns its error as-is), the length computation clipped to dest_size, the
flash read, and the cursor update. -/
def zmod_log_storage_fetch_data (st : LogState) (dstNull outNull : Bool)
    (dest_size : Nat) (env : FetchEnv) : FetchOut :=
  if dstNull = true ∨ outNull = true then
    ⟨-EINVAL, st, false, none, none⟩
  else if env.lockOk = false then
    ⟨-EBUSY, st, true, none, none⟩
  else
    let ctx0 := st.read_head
    let advanced : Int × ReadCtx :=
      if ctx0.head.fe_sector = none ∨
          (ctx0.head.fe_sector ≠ none ∧ ctx0.read_bytes = ctx0.head.fe_data_len) then
        let gn := fcb_getnext st.fcb.records ctx0.head
        (gn.1, ⟨gn.2, 0⟩)
      else
        (0, ctx0)
    if advanced.1 < 0 then
      ⟨advanced.1, { st with read_head := advanced.2 }, true, none, none⟩
    else
      let ctx := advanced.2
      let len := min (lenSub ctx.head.fe_data_len ctx.read_bytes) dest_size
      if env.readOk = false then
        ⟨-EIOerrno, { st with read_head := ctx }, true, none, none⟩
      else
        let idx := ctx.head.fe_sector.getD 0
        let bytes := ((st.fcb.records.getD idx []).drop ctx.read_bytes).take len
        ⟨0, { st with read_head := ⟨ctx.head, ctx.read_bytes + len⟩ }, true, some len, some bytes⟩

/-- Oracle for one zmod_log_storage_clear call.  lockOk records the
k_mutex_lock outcome; the C code discards that return value, so it does not
influence the result. -/
structure ClearEnv where
  lockOk : Bool
  clearRes : Int
deriving DecidableEq

/-- zmod_log_storage_clear: k_mutex_lock with its result discarded, fcb_clear,
and on success a memset of the read cursor. -/
def zmod_log_storage_clear (st : LogState) (env : ClearEnv) : Int × LogState :=
  if env.clearRes < 0 then
    (env.clearRes, st)
  else
    (0, { st with fcb := fcb_clear st.fcb, read_head := resetReadCtx })

/-- Oracle for one zmod_log_storage_init call: results of flash_area_open,
flash_area_sectors (with the sector count it reports), the static table bound
LOG_STORAGE_NUM_SECTORS, and fcb_init. -/
structure InitEnv where
  openRes : Int
  sectorsRes : Int
  reportedSectors : Nat
  maxSectors : Nat
  fcbInitRes : Int
deriving DecidableEq

/-- zmod_log_storage_init.  Mirrors the C control flow: early return when fa
is already set; flash_area_open (which leaves fa NULL on failure);
flash_area_sectors, the sector-count bound check and fcb_init, each resetting
fa to NULL on failure; then mutex init, cursor reset and export flag clear. -/
def zmod_log_storage_init (st : LogState) (env : InitEnv) : Int × LogState :=
  if st.fa ≠ none then
    (0, st)
  else if env.openRes < 0 then
    (env.openRes, st)
  else
    let st1 := { st with fa := some 1 }
    if env.sectorsRes < 0 then
      (env.sectorsRes, { st1 with fa := none })
    else if env.reportedSectors > env.maxSectors then
      (-E2BIG, { st1 with fa := none })
    else if env.fcbInitRes < 0 then
      (env.fcbInitRes, { st1 with fa := none })
    else
      (0, { st1 with read_head := resetReadCtx, export_in_progress := false })

/-- State of the log-level policy: the persisted CFG_LOG_LEVEL value (none =
no valid stored value, so zmod_config_mgr_get_value fails) and the runtime
level last applied to every log source via log_filter_set. -/
structure LevelState where
  cfg : Option Nat
  applied : Option Nat
deriving DecidableEq

/-- zmod_log_storage_set_log_level.  minLevel is LOG_RUNTIME_MIN_LEVEL;
setOk the zmod_config_mgr_set_value outcome.  Range check, clamp to the
floor, apply to all sources, then persist; -EIOerrno on persistence failure with
the applied level left in place. -/
def zmod_log_storage_set_log_level (minLevel : Nat) (setOk : Bool)
    (st : LevelState) (level : Nat) : Int × LevelState :=
  if level > LOG_LEVEL_DBG then
    (-EINVAL, st)
  else
    let clamped_level := if level < minLevel then minLevel else level
    let st1 := { st with applied := some clamped_level }
    if setOk = false then
      (-EIOerrno, st1)
    else
      (0, { st1 with cfg := some clamped_level })

/-- zmod_log_storage_init_log_level.  defaultLevel is CONFIG_LOG_DEFAULT_LEVEL;
setOkDefault / setOkClamp are the outcomes of the two possible
zmod_config_mgr_set_value calls (their results are discarded in C, so they
only determine whether the persisted value changes).  Reads the persisted
level, falls back to the default when absent or out of range (persisting it),
clamps below-floor values up to the floor (persisting the clamped value), and
applies the result to every source. -/
def zmod_log_storage_init_log_level (minLevel defaultLevel : Nat)
    (setOkDefault setOkClamp : Bool) (st : LevelState) : LevelState :=
  let use_default : Bool :=
    match st.cfg with
    | some v => if v > LOG_LEVEL_DBG then true else false
    | none => true
  let log_level1 := if use_default = true then defaultLevel else st.cfg.getD 0
  let st1 :=
    if use_default = true then
      (if setOkDefault = true then { st with cfg := some log_level1 } else st)
    else st
  let log_level2 := if log_level1 < minLevel then minLevel else log_level1
  let st2 :=
    if log_level1 < minLevel then
      (if setOkClamp = true then { st1 with cfg := some minLevel } else st1)
    else st1
  { st2 with applied := some log_level2 }

/-- Read-cursor well-formedness: every stored record fits a uint16_t length,
and a non-NULL cursor entry denotes a real record whose cached length matches,
with read_bytes within bounds.  This is the invariant the fetch path
maintains in normal operation. -/
def cursorWF (st : LogState) : Prop :=
  (∀ r ∈ st.fcb.records, r.length < 2 ^ 16) ∧
  (∀ i, st.read_head.head.fe_sector = some i →
      i < st.fcb.records.length ∧
      st.read_head.head.fe_data_len = (st.fcb.records.getD i []).length ∧
      st.read_head.read_bytes ≤ st.read_head.head.fe_data_len)

/-- C4: with the Export Flag set, append of a non-null, non-empty record
returns success (0) without reaching the mutex and leaves the whole store
state — the FIFO record list and the read cursor — unchanged. -/
theorem c4_export_suppression (st : LogState) (data : List Nat) (buf_size : Nat)
    (env : AppendEnv) (hexp : st.export_in_progress = true) (hn : buf_size ≠ 0) :
    zmod_log_storage_add_data st (some data) buf_size env = ⟨0, st, false, 0, 0⟩ := by
  simp [zmod_log_storage_add_data, hn, hexp]

/-- C4 witness: a concrete store with the Export Flag set and a concrete
one-byte record. -/
theorem c4_export_suppression_witness :
    zmod_log_storage_add_data ⟨some 1, ⟨[[1, 2]]⟩, resetReadCtx, true⟩ (some [3]) 1
        ⟨true, 0, 0, 0, 0, 0, 0⟩ =
      ⟨0, ⟨some 1, ⟨[[1, 2]]⟩, resetReadCtx, true⟩, false, 0, 0⟩ :=
  c4_export_suppression _ _ _ _ rfl (by decide)

/-- C7: for every valid severity, set_log_level leaves the clamped level
applied to the sources whether or not persistence succeeds; on persistence
failure it returns -EIOerrno with the persisted configuration untouched, and on
success it returns 0 with the clamped level persisted. -/
theorem c7_apply_before_persist (minLevel level : Nat) (st : LevelState)
    (hv : level ≤ LOG_LEVEL_DBG) :
    (zmod_log_storage_set_log_level minLevel false st level).1 = -EIOerrno ∧
    (zmod_log_storage_set_log_level minLevel false st level).2.applied =
      some (if level < minLevel then minLevel else level) ∧
    (zmod_log_storage_set_log_level minLevel false st level).2.cfg = st.cfg ∧
    (zmod_log_storage_set_log_level minLevel true st level).1 = 0 ∧
    (zmod_log_storage_set_log_level minLevel true st level).2.applied =
      some (if level < minLevel then minLevel else level) ∧
    (zmod_log_storage_set_log_level minLevel true st level).2.cfg =
      some (if level < minLevel then minLevel else level) := by
  have h : ¬ (level > LOG_LEVEL_DBG) := not_lt.mpr hv
  simp [zmod_log_storage_set_log_level, h]

/-- C7 witness: requested level 3 with floor 1 and failing persistence. -/
theorem c7_apply_before_persist_witness :
    (zmod_log_storage_set_log_level 1 false ⟨some 2, none⟩ 3).1 = -EIOerrno ∧
    (zmod_log_storage_set_log_level 1 false ⟨some 2, none⟩ 3).2.applied =
      some (if 3 < 1 then 1 else 3) ∧
    (zmod_log_storage_set_log_level 1 false ⟨some 2, none⟩ 3).2.cfg =
      (⟨some 2, none⟩ : LevelState).cfg ∧
    (zmod_log_storage_set_log_level 1 true ⟨some 2, none⟩ 3).1 = 0 ∧
    (zmod_log_storage_set_log_level 1 true ⟨some 2, none⟩ 3).2.applied =
      some (if 3 < 1 then 1 else 3) ∧
    (zmod_log_storage_set_log_level 1 true ⟨some 2, none⟩ 3).2.cfg =
      some (if 3 < 1 then 1 else 3) :=
  c7_apply_before_persist 1 3 ⟨some 2, none⟩ (by decide)

/-- C8: invalid arguments are rejected with -EINVAL before the mutex is
touched and with no state change — append with a NULL buffer for every
length, fetch with a NULL destination or NULL out-size pointer, and
set_log_level with a level above the severity enumeration; and append of a
zero-length record with a non-NULL buffer is a success no-op. -/
theorem c8_invalid_args (st : LogState) (data : List Nat)
    (buf_size dest_size : Nat) (aenv : AppendEnv) (fenv : FetchEnv)
    (dstNull outNull : Bool) (minLevel level : Nat) (setOk : Bool)
    (lst : LevelState) (hlev : LOG_LEVEL_DBG < level) :
    zmod_log_storage_add_data st none buf_size aenv = ⟨-EINVAL, st, false, 0, 0⟩ ∧
    zmod_log_storage_add_data st (some data) 0 aenv = ⟨0, st, false, 0, 0⟩ ∧
    zmod_log_storage_fetch_data st true outNull dest_size fenv =
      ⟨-EINVAL, st, false, none, none⟩ ∧
    zmod_log_storage_fetch_data st dstNull true dest_size fenv =
      ⟨-EINVAL, st, false, none, none⟩ ∧
    zmod_log_storage_set_log_level minLevel setOk lst level = (-EINVAL, lst) :=
  ⟨by simp [zmod_log_storage_add_data],
   by simp [zmod_log_storage_add_data],
   by simp [zmod_log_storage_fetch_data],
   by simp [zmod_log_storage_fetch_data],
   by simp [zmod_log_storage_set_log_level, hlev]⟩

/-- C8 witness: concrete store, record, sizes and an out-of-range level 5. -/
theorem c8_invalid_args_witness :
    zmod_log_storage_add_data ⟨some 1, ⟨[]⟩, resetReadCtx, false⟩ none 4
        ⟨true, 0, 0, 0, 0, 0, 0⟩ =
      ⟨-EINVAL, ⟨some 1, ⟨[]⟩, resetReadCtx, false⟩, false, 0, 0⟩ ∧
    zmod_log_storage_add_data ⟨some 1, ⟨[]⟩, resetReadCtx, false⟩ (some [9]) 0
        ⟨true, 0, 0, 0, 0, 0, 0⟩ =
      ⟨0, ⟨some 1, ⟨[]⟩, resetReadCtx, false⟩, false, 0, 0⟩ ∧
    zmod_log_storage_fetch_data ⟨some 1, ⟨[]⟩, resetReadCtx, false⟩ true false 8
        ⟨true, true⟩ =
      ⟨-EINVAL, ⟨some 1, ⟨[]⟩, resetReadCtx, false⟩, false, none, none⟩ ∧
    zmod_log_storage_fetch_data ⟨some 1, ⟨[]⟩, resetReadCtx, false⟩ false true 8
        ⟨true, true⟩ =
      ⟨-EINVAL, ⟨some 1, ⟨[]⟩, resetReadCtx, false⟩, false, none, none⟩ ∧
    zmod_log_storage_set_log_level 1 true ⟨none, none⟩ 5 = (-EINVAL, ⟨none, none⟩) :=
  c8_invalid_args _ [9] 4 8 ⟨true, 0, 0, 0, 0, 0, 0⟩ ⟨true, true⟩ false false 1 5 true
    ⟨none, none⟩ (by decide)

/-- C10: starting uninitialized, init leaves the flash-area handle non-null
exactly when it returns success; every failure leaves the state exactly as it
was (handle null), so a later init runs the sequence afresh; and once the
handle is set, init is a success no-op. -/
theorem c10_init_handle_invariant (st : LogState) (env env2 : InitEnv)
    (h : st.fa = none) :
    ((zmod_log_storage_init st env).1 < 0 → (zmod_log_storage_init st env).2 = st) ∧
    ((zmod_log_storage_init st env).1 = 0 ↔ (zmod_log_storage_init st env).2.fa ≠ none) ∧
    ((zmod_log_storage_init st env).1 = 0 →
        zmod_log_storage_init (zmod_log_storage_init st env).2 env2 =
          (0, (zmod_log_storage_init st env).2)) ∧
    (∀ stI : LogState, stI.fa ≠ none → zmod_log_storage_init stI env2 = (0, stI)) := by
  obtain ⟨fa, fcbv, rh, ex⟩ := st
  simp only at h
  subst h
  have hIdem : ∀ stI : LogState, stI.fa ≠ none →
      zmod_log_storage_init stI env2 = (0, stI) := by
    intro stI hI
    simp [zmod_log_storage_init, hI]
  refine ⟨?_, ?_, ?_, hIdem⟩
  all_goals
    by_cases h1 : env.openRes < 0 <;>
    by_cases h2 : env.sectorsRes < 0 <;>
    by_cases h3 : env.reportedSectors > env.maxSectors <;>
    by_cases h4 : env.fcbInitRes < 0 <;>
    simp [zmod_log_storage_init, h1, h2, h3, h4, E2BIG] <;>
    omega

/-- C10 witness: a fresh state with a fully successful environment and a
second environment that would fail, showing the repeat call is a no-op. -/
theorem c10_init_handle_invariant_witness :
    ((zmod_log_storage_init ⟨none, ⟨[]⟩, resetReadCtx, false⟩ ⟨0, 0, 2, 4, 0⟩).1 < 0 →
        (zmod_log_storage_init ⟨none, ⟨[]⟩, resetReadCtx, false⟩ ⟨0, 0, 2, 4, 0⟩).2 =
          ⟨none, ⟨[]⟩, resetReadCtx, false⟩) ∧
    ((zmod_log_storage_init ⟨none, ⟨[]⟩, resetReadCtx, false⟩ ⟨0, 0, 2, 4, 0⟩).1 = 0 ↔
        (zmod_log_storage_init ⟨none, ⟨[]⟩, resetReadCtx, false⟩ ⟨0, 0, 2, 4, 0⟩).2.fa ≠
          none) ∧
    ((zmod_log_storage_init ⟨none, ⟨[]⟩, resetReadCtx, false⟩ ⟨0, 0, 2, 4, 0⟩).1 = 0 →
        zmod_log_storage_init
            (zmod_log_storage_init ⟨none, ⟨[]⟩, resetReadCtx, false⟩ ⟨0, 0, 2, 4, 0⟩).2
            ⟨-5, -5, 9, 4, -5⟩ =
          (0, (zmod_log_storage_init ⟨none, ⟨[]⟩, resetReadCtx, false⟩ ⟨0, 0, 2, 4, 0⟩).2)) ∧
    (∀ stI : LogState, stI.fa ≠ none →
        zmod_log_storage_init stI ⟨-5, -5, 9, 4, -5⟩ = (0, stI)) :=
  c10_init_handle_invariant ⟨none, ⟨[]⟩, resetReadCtx, false⟩ ⟨0, 0, 2, 4, 0⟩
    ⟨-5, -5, 9, 4, -5⟩ rfl

/-- C5: the applied and persisted severity never goes below the floor.  For a
requested valid level below the floor, set_log_level applies exactly the floor
and (when the configuration write succeeds) persists exactly the floor; and
init_log_level clamps a below-floor persisted level, and a below-floor default
used when no valid value is persisted, up to exactly the floor, applying it
and (when the configuration write succeeds) persisting it. -/
theorem c5_floor_clamp (minLevel defaultLevel level v : Nat) (setOk sd sc : Bool)
    (st stp stq : LevelState)
    (h1 : level ≤ LOG_LEVEL_DBG) (h2 : level < minLevel)
    (h3 : stp.cfg = some v) (h4 : v ≤ LOG_LEVEL_DBG) (h5 : v < minLevel)
    (h6 : stq.cfg = none) (h7 : defaultLevel < minLevel) :
    ((zmod_log_storage_set_log_level minLevel setOk st level).2.applied =
        some minLevel ∧
      (setOk = true →
        (zmod_log_storage_set_log_level minLevel setOk st level).2.cfg =
          some minLevel)) ∧
    ((zmod_log_storage_init_log_level minLevel defaultLevel sd sc stp).applied =
        some minLevel ∧
      (sc = true →
        (zmod_log_storage_init_log_level minLevel defaultLevel sd sc stp).cfg =
          some minLevel)) ∧
    ((zmod_log_storage_init_log_level minLevel defaultLevel sd sc stq).applied =
        some minLevel ∧
      (sc = true →
        (zmod_log_storage_init_log_level minLevel defaultLevel sd sc stq).cfg =
          some minLevel)) := by
  have hnl : ¬ (level > LOG_LEVEL_DBG) := not_lt.mpr h1
  have hnv : ¬ (v > LOG_LEVEL_DBG) := not_lt.mpr h4
  refine ⟨⟨?_, ?_⟩, ⟨?_, ?_⟩, ⟨?_, ?_⟩⟩
  · cases setOk <;> simp [zmod_log_storage_set_log_level, hnl, h2]
  · intro hs
    simp [zmod_log_storage_set_log_level, hnl, h2, hs]
  · cases sd <;> cases sc <;> simp [zmod_log_storage_init_log_level, h3, hnv, h5]
  · intro hs
    simp [zmod_log_storage_init_log_level, h3, hnv, h5, hs]
  · cases sd <;> cases sc <;> simp [zmod_log_storage_init_log_level, h6, h7]
  · intro hs
    simp [zmod_log_storage_init_log_level, h6, h7, hs]

/-- C5 witness: floor 2, default 1, requested level 1, persisted level 0. -/
theorem c5_floor_clamp_witness :
    ((zmod_log_storage_set_log_level 2 true ⟨some 3, none⟩ 1).2.applied = some 2 ∧
      (true = true →
        (zmod_log_storage_set_log_level 2 true ⟨some 3, none⟩ 1).2.cfg = some 2)) ∧
    ((zmod_log_storage_init_log_level 2 1 true true ⟨some 0, none⟩).applied = some 2 ∧
      (true = true →
        (zmod_log_storage_init_log_level 2 1 true true ⟨some 0, none⟩).cfg = some 2)) ∧
    ((zmod_log_storage_init_log_level 2 1 true true ⟨none, none⟩).applied = some 2 ∧
      (true = true →
        (zmod_log_storage_init_log_level 2 1 true true ⟨none, none⟩).cfg = some 2)) :=
  c5_floor_clamp 2 1 1 0 true true true ⟨some 3, none⟩ ⟨some 0, none⟩ ⟨none, none⟩
    (by decide) (by decide) rfl (by decide) (by decide) rfl (by decide)

/-- C6: a sector-full reservation triggers exactly one rotation and one retry
of the same reservation — rotation happens exactly when the first reservation
reports -ENOSPC, never more than once per append call — and when the retried
reservation succeeds, the call's result is decided solely by the write and
finalize steps (0 when both succeed), so sector-full alone is never reported
to the caller. -/
theorem c6_rotate_once_retry_once (st : LogState) (data : List Nat)
    (buf_size : Nat) (env : AppendEnv) (hn : buf_size ≠ 0)
    (hexp : st.export_in_progress = false) (hl : env.lockOk = true)
    (out : AppendOut)
    (hout : out = zmod_log_storage_add_data st (some data) buf_size env) :
    out.rotateCalls ≤ 1 ∧
    (out.rotateCalls = 1 ↔ env.res1 = -ENOSPC) ∧
    (env.res1 = -ENOSPC → 0 ≤ env.rotateRes → out.reserveCalls = 2) ∧
    (env.res1 ≠ -ENOSPC → out.reserveCalls = 1) ∧
    (env.res1 = -ENOSPC → 0 ≤ env.rotateRes → 0 ≤ env.res2 →
        out.ret = if env.writeRes < 0 then env.writeRes
                  else if env.finishRes < 0 then env.finishRes else 0) := by
  subst hout
  simp only [zmod_log_storage_add_data, hexp, hl, if_neg hn]
  simp only [Bool.true_eq_false, if_false, Bool.false_eq_true, if_neg (by simp : ¬False)]
  unfold prv_append_locked prv_write_finish
  split_ifs <;> simp_all

/-- C6 witness: a store whose first reservation reports sector-full, with a
successful rotation, retry, write and finalize. -/
theorem c6_rotate_once_retry_once_witness :
    (zmod_log_storage_add_data ⟨some 1, ⟨[[1], [2]]⟩, resetReadCtx, false⟩ (some [9]) 1
        ⟨true, -ENOSPC, 0, 1, 0, 0, 0⟩).rotateCalls ≤ 1 ∧
    ((zmod_log_storage_add_data ⟨some 1, ⟨[[1], [2]]⟩, resetReadCtx, false⟩ (some [9]) 1
        ⟨true, -ENOSPC, 0, 1, 0, 0, 0⟩).rotateCalls = 1 ↔
      (⟨true, -ENOSPC, 0, 1, 0, 0, 0⟩ : AppendEnv).res1 = -ENOSPC) ∧
    ((⟨true, -ENOSPC, 0, 1, 0, 0, 0⟩ : AppendEnv).res1 = -ENOSPC →
      0 ≤ (⟨true, -ENOSPC, 0, 1, 0, 0, 0⟩ : AppendEnv).rotateRes →
      (zmod_log_storage_add_data ⟨some 1, ⟨[[1], [2]]⟩, resetReadCtx, false⟩ (some [9]) 1
        ⟨true, -ENOSPC, 0, 1, 0, 0, 0⟩).reserveCalls = 2) ∧
    ((⟨true, -ENOSPC, 0, 1, 0, 0, 0⟩ : AppendEnv).res1 ≠ -ENOSPC →
      (zmod_log_storage_add_data ⟨some 1, ⟨[[1], [2]]⟩, resetReadCtx, false⟩ (some [9]) 1
        ⟨true, -ENOSPC, 0, 1, 0, 0, 0⟩).reserveCalls = 1) ∧
    ((⟨true, -ENOSPC, 0, 1, 0, 0, 0⟩ : AppendEnv).res1 = -ENOSPC →
      0 ≤ (⟨true, -ENOSPC, 0, 1, 0, 0, 0⟩ : AppendEnv).rotateRes →
      0 ≤ (⟨true, -ENOSPC, 0, 1, 0, 0, 0⟩ : AppendEnv).res2 →
      (zmod_log_storage_add_data ⟨some 1, ⟨[[1], [2]]⟩, resetReadCtx, false⟩ (some [9]) 1
          ⟨true, -ENOSPC, 0, 1, 0, 0, 0⟩).ret =
        if (⟨true, -ENOSPC, 0, 1, 0, 0, 0⟩ : AppendEnv).writeRes < 0 then
          (⟨true, -ENOSPC, 0, 1, 0, 0, 0⟩ : AppendEnv).writeRes
        else if (⟨true, -ENOSPC, 0, 1, 0, 0, 0⟩ : AppendEnv).finishRes < 0 then
          (⟨true, -ENOSPC, 0, 1, 0, 0, 0⟩ : AppendEnv).finishRes
        else 0) :=
  c6_rotate_once_retry_once ⟨some 1, ⟨[[1], [2]]⟩, resetReadCtx, false⟩ [9] 1
    ⟨true, -ENOSPC, 0, 1, 0, 0, 0⟩ (by decide) rfl rfl _ rfl

/-- Concrete store for the C1 counterexample: initialized, holding one
surviving one-byte record, cursor reset, export flag clear. -/
def c1State : LogState := ⟨some 1, ⟨[[7]]⟩, resetReadCtx, false⟩

/-- Concrete environment for the C1 counterexample: lock acquired,
reservation succeeds immediately, but the flash write of the record bytes
fails with -EIOerrno. -/
def c1Env : AppendEnv := ⟨true, 0, 0, 0, 0, -EIOerrno, 0⟩

/-- C1 counterexample: an append call in which a step of the append sequence
(the flash write of the record bytes) fails, yet the store does NOT clear
itself — the previously stored record survives and the read cursor is
untouched, the error merely being returned.  This refutes the claim that any
step failing collapses into a full clear. -/
theorem c1_counterexample :
    (zmod_log_storage_add_data c1State (some [9]) 1 c1Env).ret = -EIOerrno ∧
    (zmod_log_storage_add_data c1State (some [9]) 1 c1Env).st = c1State ∧
    (zmod_log_storage_add_data c1State (some [9]) 1 c1Env).st.fcb.records ≠ [] := by
  decide

/-- C1 amended: the destructive clear-and-reset fail-safe fires exactly when
the space reservation fails — a first-reservation failure other than
sector-full, or a failed retry after the one rotation; a rotation failure, a
flash-write failure or a finalize failure returns the error without clearing,
leaving the surviving records and the read cursor as they were (after a
successful rotation, minus the records the rotated sector held). -/
theorem c1_clear_only_on_reservation_failure (st : LogState) (data : List Nat)
    (buf_size : Nat) (env : AppendEnv) (hn : buf_size ≠ 0)
    (hexp : st.export_in_progress = false) (hl : env.lockOk = true)
    (out : AppendOut)
    (hout : out = zmod_log_storage_add_data st (some data) buf_size env) :
    (env.res1 < 0 → env.res1 ≠ -ENOSPC →
        out.ret = env.res1 ∧ out.st.fcb.records = [] ∧
        out.st.read_head = resetReadCtx) ∧
    (env.res1 = -ENOSPC → 0 ≤ env.rotateRes → env.res2 < 0 →
        out.ret = env.res2 ∧ out.st.fcb.records = [] ∧
        out.st.read_head = resetReadCtx) ∧
    (env.res1 = -ENOSPC → env.rotateRes < 0 →
        out.ret = env.rotateRes ∧ out.st = st) ∧
    (0 ≤ env.res1 → env.writeRes < 0 →
        out.ret = env.writeRes ∧ out.st = st) ∧
    (0 ≤ env.res1 → 0 ≤ env.writeRes → env.finishRes < 0 →
        out.ret = env.finishRes ∧ out.st = st) ∧
    (env.res1 = -ENOSPC → 0 ≤ env.rotateRes → 0 ≤ env.res2 → env.writeRes < 0 →
        out.ret = env.writeRes ∧
        out.st.fcb.records = st.fcb.records.drop env.rotateDrop ∧
        out.st.read_head = st.read_head) ∧
    (env.res1 = -ENOSPC → 0 ≤ env.rotateRes → 0 ≤ env.res2 → 0 ≤ env.writeRes →
        env.finishRes < 0 →
        out.ret = env.finishRes ∧
        out.st.fcb.records = st.fcb.records.drop env.rotateDrop ∧
        out.st.read_head = st.read_head) := by
  subst hout
  simp only [zmod_log_storage_add_data, hexp, hl, if_neg hn]
  simp only [Bool.true_eq_false, if_false, Bool.false_eq_true,
    if_neg (by simp : ¬False)]
  unfold prv_append_locked prv_write_finish fcb_clear fcb_rotate_effect
  split_ifs <;> simp_all [ENOSPC]

/-- C1 amended witness: a finalize failure after a sector-full reservation,
rotation and successful retry, leaving the rotated record list intact. -/
theorem c1_clear_only_on_reservation_failure_witness :
    ((⟨true, -ENOSPC, 0, 1, 0, 0, -EIOerrno⟩ : AppendEnv).res1 < 0 →
      (⟨true, -ENOSPC, 0, 1, 0, 0, -EIOerrno⟩ : AppendEnv).res1 ≠ -ENOSPC →
      (zmod_log_storage_add_data ⟨some 1, ⟨[[5], [6]]⟩, resetReadCtx, false⟩ (some [9]) 1
          ⟨true, -ENOSPC, 0, 1, 0, 0, -EIOerrno⟩).ret =
        (⟨true, -ENOSPC, 0, 1, 0, 0, -EIOerrno⟩ : AppendEnv).res1 ∧
      (zmod_log_storage_add_data ⟨some 1, ⟨[[5], [6]]⟩, resetReadCtx, false⟩ (some [9]) 1
          ⟨true, -ENOSPC, 0, 1, 0, 0, -EIOerrno⟩).st.fcb.records = [] ∧
      (zmod_log_storage_add_data ⟨some 1, ⟨[[5], [6]]⟩, resetReadCtx, false⟩ (some [9]) 1
          ⟨true, -ENOSPC, 0, 1, 0, 0, -EIOerrno⟩).st.read_head = resetReadCtx) ∧
    ((⟨true, -ENOSPC, 0, 1, 0, 0, -EIOerrno⟩ : AppendEnv).res1 = -ENOSPC →
      0 ≤ (⟨true, -ENOSPC, 0, 1, 0, 0, -EIOerrno⟩ : AppendEnv).rotateRes →
      (⟨true, -ENOSPC, 0, 1, 0, 0, -EIOerrno⟩ : AppendEnv).res2 < 0 →
      (zmod_log_storage_add_data ⟨some 1, ⟨[[5], [6]]⟩, resetReadCtx, false⟩ (some [9]) 1
          ⟨true, -ENOSPC, 0, 1, 0, 0, -EIOerrno⟩).ret =
        (⟨true, -ENOSPC, 0, 1, 0, 0, -EIOerrno⟩ : AppendEnv).res2 ∧
      (zmod_log_storage_add_data ⟨some 1, ⟨[[5], [6]]⟩, resetReadCtx, false⟩ (some [9]) 1
          ⟨true, -ENOSPC, 0, 1, 0, 0, -EIOerrno⟩).st.fcb.records = [] ∧
      (zmod_log_storage_add_data ⟨some 1, ⟨[[5], [6]]⟩, resetReadCtx, false⟩ (some [9]) 1
          ⟨true, -ENOSPC, 0, 1, 0, 0, -EIOerrno⟩).st.read_head = resetReadCtx) ∧
    ((⟨true, -ENOSPC, 0, 1, 0, 0, -EIOerrno⟩ : AppendEnv).res1 = -ENOSPC →
      (⟨true, -ENOSPC, 0, 1, 0, 0, -EIOerrno⟩ : AppendEnv).rotateRes < 0 →
      (zmod_log_storage_add_data ⟨some 1, ⟨[[5], [6]]⟩, resetReadCtx, false⟩ (some [9]) 1
          ⟨true, -ENOSPC, 0, 1, 0, 0, -EIOerrno⟩).ret =
        (⟨true, -ENOSPC, 0, 1, 0, 0, -EIOerrno⟩ : AppendEnv).rotateRes ∧
      (zmod_log_storage_add_data ⟨some 1, ⟨[[5], [6]]⟩, resetReadCtx, false⟩ (some [9]) 1
          ⟨true, -ENOSPC, 0, 1, 0, 0, -EIOerrno⟩).st =
        ⟨some 1, ⟨[[5], [6]]⟩, resetReadCtx, false⟩) ∧
    (0 ≤ (⟨true, -ENOSPC, 0, 1, 0, 0, -EIOerrno⟩ : AppendEnv).res1 →
      (⟨true, -ENOSPC, 0, 1, 0, 0, -EIOerrno⟩ : AppendEnv).writeRes < 0 →
      (zmod_log_storage_add_data ⟨some 1, ⟨[[5], [6]]⟩, resetReadCtx, false⟩ (some [9]) 1
          ⟨true, -ENOSPC, 0, 1, 0, 0, -EIOerrno⟩).ret =
        (⟨true, -ENOSPC, 0, 1, 0, 0, -EIOerrno⟩ : AppendEnv).writeRes ∧
      (zmod_log_storage_add_data ⟨some 1, ⟨[[5], [6]]⟩, resetReadCtx, false⟩ (some [9]) 1
          ⟨true, -ENOSPC, 0, 1, 0, 0, -EIOerrno⟩).st =
        ⟨some 1, ⟨[[5], [6]]⟩, resetReadCtx, false⟩) ∧
    (0 ≤ (⟨true, -ENOSPC, 0, 1, 0, 0, -EIOerrno⟩ : AppendEnv).res1 →
      0 ≤ (⟨true, -ENOSPC, 0, 1, 0, 0, -EIOerrno⟩ : AppendEnv).writeRes →
      (⟨true, -ENOSPC, 0, 1, 0, 0, -EIOerrno⟩ : AppendEnv).finishRes < 0 →
      (zmod_log_storage_add_data ⟨some 1, ⟨[[5], [6]]⟩, resetReadCtx, false⟩ (some [9]) 1
          ⟨true, -ENOSPC, 0, 1, 0, 0, -EIOerrno⟩).ret =
        (⟨true, -ENOSPC, 0, 1, 0, 0, -EIOerrno⟩ : AppendEnv).finishRes ∧
      (zmod_log_storage_add_data ⟨some 1, ⟨[[5], [6]]⟩, resetReadCtx, false⟩ (some [9]) 1
          ⟨true, -ENOSPC, 0, 1, 0, 0, -EIOerrno⟩).st =
        ⟨some 1, ⟨[[5], [6]]⟩, resetReadCtx, false⟩) ∧
    ((⟨true, -ENOSPC, 0, 1, 0, 0, -EIOerrno⟩ : AppendEnv).res1 = -ENOSPC →
      0 ≤ (⟨true, -ENOSPC, 0, 1, 0, 0, -EIOerrno⟩ : AppendEnv).rotateRes →
      0 ≤ (⟨true, -ENOSPC, 0, 1, 0, 0, -EIOerrno⟩ : AppendEnv).res2 →
      (⟨true, -ENOSPC, 0, 1, 0, 0, -EIOerrno⟩ : AppendEnv).writeRes < 0 →
      (zmod_log_storage_add_data ⟨some 1, ⟨[[5], [6]]⟩, resetReadCtx, false⟩ (some [9]) 1
          ⟨true, -ENOSPC, 0, 1, 0, 0, -EIOerrno⟩).ret =
        (⟨true, -ENOSPC, 0, 1, 0, 0, -EIOerrno⟩ : AppendEnv).writeRes ∧
      (zmod_log_storage_add_data ⟨some 1, ⟨[[5], [6]]⟩, resetReadCtx, false⟩ (some [9]) 1
          ⟨true, -ENOSPC, 0, 1, 0, 0, -EIOerrno⟩).st.fcb.records =
        ([[5], [6]] : List (List Nat)).drop
          (⟨true, -ENOSPC, 0, 1, 0, 0, -EIOerrno⟩ : AppendEnv).rotateDrop ∧
      (zmod_log_storage_add_data ⟨some 1, ⟨[[5], [6]]⟩, resetReadCtx, false⟩ (some [9]) 1
          ⟨true, -ENOSPC, 0, 1, 0, 0, -EIOerrno⟩).st.read_head = resetReadCtx) ∧
    ((⟨true, -ENOSPC, 0, 1, 0, 0, -EIOerrno⟩ : AppendEnv).res1 = -ENOSPC →
      0 ≤ (⟨true, -ENOSPC, 0, 1, 0, 0, -EIOerrno⟩ : AppendEnv).rotateRes →
      0 ≤ (⟨true, -ENOSPC, 0, 1, 0, 0, -EIOerrno⟩ : AppendEnv).res2 →
      0 ≤ (⟨true, -ENOSPC, 0, 1, 0, 0, -EIOerrno⟩ : AppendEnv).writeRes →
      (⟨true, -ENOSPC, 0, 1, 0, 0, -EIOerrno⟩ : AppendEnv).finishRes < 0 →
      (zmod_log_storage_add_data ⟨some 1, ⟨[[5], [6]]⟩, resetReadCtx, false⟩ (some [9]) 1
          ⟨true, -ENOSPC, 0, 1, 0, 0, -EIOerrno⟩).ret =
        (⟨true, -ENOSPC, 0, 1, 0, 0, -EIOerrno⟩ : AppendEnv).finishRes ∧
      (zmod_log_storage_add_data ⟨some 1, ⟨[[5], [6]]⟩, resetReadCtx, false⟩ (some [9]) 1
          ⟨true, -ENOSPC, 0, 1, 0, 0, -EIOerrno⟩).st.fcb.records =
        ([[5], [6]] : List (List Nat)).drop
          (⟨true, -ENOSPC, 0, 1, 0, 0, -EIOerrno⟩ : AppendEnv).rotateDrop ∧
      (zmod_log_storage_add_data ⟨some 1, ⟨[[5], [6]]⟩, resetReadCtx, false⟩ (some [9]) 1
          ⟨true, -ENOSPC, 0, 1, 0, 0, -EIOerrno⟩).st.read_head = resetReadCtx) :=
  c1_clear_only_on_reservation_failure ⟨some 1, ⟨[[5], [6]]⟩, resetReadCtx, false⟩ [9] 1
    ⟨true, -ENOSPC, 0, 1, 0, 0, -EIOerrno⟩ (by decide) rfl rfl _ rfl

/-- Concrete store for the C3 counterexample: initialized, holding one
record. -/
def c3State : LogState := ⟨some 1, ⟨[[7]]⟩, resetReadCtx, false⟩

/-- Concrete environment for the C3 counterexample: the mutex acquisition
times out, the FCB clear itself succeeds. -/
def c3Env : ClearEnv := ⟨false, 0⟩

/-- C3 counterexample: a clear call whose lock acquisition fails still erases
every stored record and returns 0, not -EBUSY — refuting the claim that
every store operation returns a busy condition without performing the
operation when the lock cannot be acquired, and in particular that clear
never erases after a failed acquisition. -/
theorem c3_counterexample :
    (zmod_log_storage_clear c3State c3Env).1 = 0 ∧
    (zmod_log_storage_clear c3State c3Env).2.fcb.records = [] := by
  decide

/-- C3 amended: append and fetch acquire the single lock with the bounded
timeout and, when acquisition fails, return -EBUSY without touching the
store; clear attempts the same bounded acquisition but discards its outcome,
so its behaviour is identical whether or not the lock was obtained. -/
theorem c3_busy_on_lock_failure (st : LogState) (data : List Nat)
    (buf_size dest_size : Nat) (aenv : AppendEnv) (fenv : FetchEnv)
    (cenv : ClearEnv) (hn : buf_size ≠ 0)
    (hexp : st.export_in_progress = false)
    (ha : aenv.lockOk = false) (hf : fenv.lockOk = false) :
    (zmod_log_storage_add_data st (some data) buf_size aenv).ret = -EBUSY ∧
    (zmod_log_storage_add_data st (some data) buf_size aenv).st = st ∧
    (zmod_log_storage_fetch_data st false false dest_size fenv).ret = -EBUSY ∧
    (zmod_log_storage_fetch_data st false false dest_size fenv).st = st ∧
    zmod_log_storage_clear st cenv = zmod_log_storage_clear st ⟨true, cenv.clearRes⟩ := by
  refine ⟨?_, ?_, ?_, ?_, rfl⟩ <;>
    simp [zmod_log_storage_add_data, zmod_log_storage_fetch_data, hn, hexp, ha, hf]

/-- C3 amended witness: concrete store, record and environments with failed
lock acquisitions. -/
theorem c3_busy_on_lock_failure_witness :
    (zmod_log_storage_add_data ⟨some 1, ⟨[[7]]⟩, resetReadCtx, false⟩ (some [9]) 1
        ⟨false, 0, 0, 0, 0, 0, 0⟩).ret = -EBUSY ∧
    (zmod_log_storage_add_data ⟨some 1, ⟨[[7]]⟩, resetReadCtx, false⟩ (some [9]) 1
        ⟨false, 0, 0, 0, 0, 0, 0⟩).st = ⟨some 1, ⟨[[7]]⟩, resetReadCtx, false⟩ ∧
    (zmod_log_storage_fetch_data ⟨some 1, ⟨[[7]]⟩, resetReadCtx, false⟩ false false 8
        ⟨false, true⟩).ret = -EBUSY ∧
    (zmod_log_storage_fetch_data ⟨some 1, ⟨[[7]]⟩, resetReadCtx, false⟩ false false 8
        ⟨false, true⟩).st = ⟨some 1, ⟨[[7]]⟩, resetReadCtx, false⟩ ∧
    zmod_log_storage_clear ⟨some 1, ⟨[[7]]⟩, resetReadCtx, false⟩ ⟨false, 0⟩ =
      zmod_log_storage_clear ⟨some 1, ⟨[[7]]⟩, resetReadCtx, false⟩ ⟨true, 0⟩ :=
  c3_busy_on_lock_failure ⟨some 1, ⟨[[7]]⟩, resetReadCtx, false⟩ [9] 1 8
    ⟨false, 0, 0, 0, 0, 0, 0⟩ ⟨false, true⟩ ⟨false, 0⟩ (by decide) rfl rfl rfl

/-- Concrete store for the C2 trace: initialized, one two-byte record
surviving, cursor reset. -/
def c2State : LogState := ⟨some 1, ⟨[[7, 8]]⟩, resetReadCtx, false⟩

/-- Environment for the C2 trace: lock and flash reads always succeed. -/
def c2Env : FetchEnv := ⟨true, true⟩

/-- First fetch on the C2 store: delivers the whole record. -/
def c2_fetch1 : FetchOut := zmod_log_storage_fetch_data c2State false false 8 c2Env

/-- Second fetch: the cursor is exhausted, the no-more-data sentinel. -/
def c2_fetch2 : FetchOut := zmod_log_storage_fetch_data c2_fetch1.st false false 8 c2Env

/-- Third fetch, with no intervening append or cursor reset. -/
def c2_fetch3 : FetchOut := zmod_log_storage_fetch_data c2_fetch2.st false false 8 c2Env

/-- C2: the failing trace.  After the single record is fully delivered, the
next fetch returns the -ENOENT sentinel — but that call zeroes the cursor's
read_bytes before the advance fails, so the call after it returns 0 and
delivers the last record's bytes over again, with no new data appended and no
cursor reset in between.  Repeated fetch after exhaustion is therefore not a
pure sentinel-returning no-op: it alternates between the sentinel and
re-delivering data. -/
theorem c2_fetch_after_exhaustion_redelivers :
    c2_fetch1.ret = 0 ∧ c2_fetch1.delivered = some [7, 8] ∧
    c2_fetch2.ret = -ENOENT ∧
    c2_fetch2.st.read_head.read_bytes = 0 ∧
    c2_fetch3.ret = 0 ∧ c2_fetch3.delivered = some [7, 8] := by
  decide

/-- For in-range operands the uint16 length expression in fetch is plain
subtraction. -/
theorem lenSub_eq_sub (dataLen readBytes : Nat) (h1 : readBytes ≤ dataLen)
    (h2 : dataLen < 2 ^ 16) : lenSub dataLen readBytes = dataLen - readBytes := by
  unfold lenSub
  omega

/-- C9: a successful fetch delivers bytes from exactly one stored record —
there are a record index i and an already-delivered count rb such that the
reported byte count is the minimum of the destination capacity and the
record's undelivered remainder, and the delivered bytes are exactly that
slice of that single record; a fetch never crosses a record boundary. -/
theorem c9_fetch_single_record (st : LogState) (dest_size : Nat) (env : FetchEnv)
    (hWF : cursorWF st) (hl : env.lockOk = true) (hr : env.readOk = true)
    (out : FetchOut)
    (hout : out = zmod_log_storage_fetch_data st false false dest_size env)
    (hret : out.ret = 0) :
    ∃ i, i < st.fcb.records.length ∧
      ∃ rb, rb ≤ (st.fcb.records.getD i []).length ∧
        out.out_size = some (min ((st.fcb.records.getD i []).length - rb) dest_size) ∧
        out.delivered = some (((st.fcb.records.getD i []).drop rb).take
          (min ((st.fcb.records.getD i []).length - rb) dest_size)) := by
  obtain ⟨hlen, hcur⟩ := hWF
  rcases hsec : st.read_head.head.fe_sector with _ | j
  · rcases hrecs : st.fcb.records with _ | ⟨r, rs⟩
    · subst hout
      simp [zmod_log_storage_fetch_data, hl, hr, hsec, hrecs, fcb_getnext,
        ENOENT] at hret
    · have hrlen : r.length < 2 ^ 16 := by
        refine hlen r ?_
        rw [hrecs]
        exact List.mem_cons_self r rs
      subst hout
      refine ⟨0, by simp [hrecs], 0, by simp, ?_, ?_⟩ <;>
        simp [zmod_log_storage_fetch_data, hl, hr, hsec, hrecs, fcb_getnext,
          lenSub_eq_sub r.length 0 (Nat.zero_le _) hrlen]
  · obtain ⟨hj1, hj2, hj3⟩ := hcur j hsec
    by_cases hc : st.read_head.read_bytes = st.read_head.head.fe_data_len
    · by_cases hnext : j + 1 < st.fcb.records.length
      · have hglen : st.fcb.records[j + 1].length < 2 ^ 16 :=
          hlen _ (List.getElem_mem hnext)
        subst hout
        refine ⟨j + 1, hnext, 0, by simp, ?_, ?_⟩ <;>
          simp [zmod_log_storage_fetch_data, hl, hr, hsec, hc, fcb_getnext, hnext,
            lenSub_eq_sub _ 0 (Nat.zero_le _) hglen,
            List.getD_eq_getElem _ _ hnext]
      · subst hout
        simp [zmod_log_storage_fetch_data, hl, hr, hsec, hc, fcb_getnext, hnext,
          ENOENT] at hret
    · have hgd : st.fcb.records.getD j [] = st.fcb.records[j] :=
        List.getD_eq_getElem _ _ hj1
      have hdl : st.read_head.head.fe_data_len < 2 ^ 16 := by
        rw [hj2, hgd]
        exact hlen _ (List.getElem_mem hj1)
      subst hout
      refine ⟨j, hj1, st.read_head.read_bytes, by rw [← hj2]; exact hj3, ?_, ?_⟩ <;>
        (rw [← hj2]
         simp [zmod_log_storage_fetch_data, hl, hr, hsec, hc,
           lenSub_eq_sub _ _ hj3 hdl])

/-- C9 witness: one three-byte stored record drained with a two-byte
destination buffer. -/
theorem c9_fetch_single_record_witness :
    ∃ i, i < (⟨some 1, ⟨[[5, 6, 7]]⟩, resetReadCtx, false⟩ : LogState).fcb.records.length ∧
      ∃ rb,
        rb ≤ ((⟨some 1, ⟨[[5, 6, 7]]⟩, resetReadCtx, false⟩ :
          LogState).fcb.records.getD i []).length ∧
        (zmod_log_storage_fetch_data ⟨some 1, ⟨[[5, 6, 7]]⟩, resetReadCtx, false⟩
            false false 2 ⟨true, true⟩).out_size =
          some (min (((⟨some 1, ⟨[[5, 6, 7]]⟩, resetReadCtx, false⟩ :
            LogState).fcb.records.getD i []).length - rb) 2) ∧
        (zmod_log_storage_fetch_data ⟨some 1, ⟨[[5, 6, 7]]⟩, resetReadCtx, false⟩
            false false 2 ⟨true, true⟩).delivered =
          some ((((⟨some 1, ⟨[[5, 6, 7]]⟩, resetReadCtx, false⟩ :
            LogState).fcb.records.getD i []).drop rb).take
              (min (((⟨some 1, ⟨[[5, 6, 7]]⟩, resetReadCtx, false⟩ :
                LogState).fcb.records.getD i []).length - rb) 2)) :=
  c9_fetch_single_record ⟨some 1, ⟨[[5, 6, 7]]⟩, resetReadCtx, false⟩ 2 ⟨true, true⟩
    (by
      refine ⟨by decide, ?_⟩
      intro i h
      simp [resetReadCtx] at h)
    rfl rfl _ rfl (by decide)

end ZmodLogStorage
